import Mathlib

/- Verification development for rusty-html-extractor (src/main.rs).

   The program is embedded shallowly:
   * strings are `List Char` (`Str`), so that every definition reduces in the
     kernel; `str` injects Lean string literals;
   * the filesystem visible to the program is an explicit `FS` state: a set of
     existing directories and a map from paths to file contents;
   * external collaborators (the `hp` argument parser, the `zip` crate, the
     `html2text` renderer, the spawned `file` process, and the success or
     failure of each individual I/O call) are supplied by an `Env` record of
     oracles, universally quantified in the theorems;
   * `std::process::exit` semantics of `fn main() -> Result<_, MyError>` are
     modelled by the `exit_ok` field of `MainOutcome` (`true` iff main returns
     `Ok`, i.e. the process exit status is success).

   Modelling notes, each tied to the source:
   * `archive.by_index(i)` is assumed to succeed; entry `i` is `env.entries[i]`.
   * `archive.extract` writes only under the scratch path `/tmp/...`, outside
     the output tree, so it does not touch `FS`; its possible failure is the
     oracle `extract_archive_ok`.
   * `opts.width.try_into().unwrap_or(80)` converts `u32` to `usize`; on the
     64-bit targets the program supports this never fails, so the model passes
     the width through unchanged.
   * `str::to_lowercase` is modelled on ASCII letters only; the needle
     "html document" is ASCII, so classification agrees with the source on
     every ASCII `file(1)` answer.
   * `html_text.lines()` differs from splitting on '\n' only in a trailing
     empty piece and in '\r' handling; html2text emits '\n'-separated text and
     the program drops all empty lines, under which the two agree.
   * `io::copy` after a successful `File::create` is assumed to succeed; the
     modelled failure of the copy branch is `File::create` on a missing parent
     directory, which is the branch the source can actually hit on archives
     without directory entries. -/

namespace Extractor

abbrev Str := List Char

abbrev Bytes := List Nat

def str (s : String) : Str := s.toList

def lowerChar (c : Char) : Char :=
  if 'A' ≤ c ∧ c ≤ 'Z' then Char.ofNat (c.toNat + 32) else c

def lowerStr (s : Str) : Str := s.map lowerChar

def isPrefixB : Str → Str → Bool
  | [], _ => true
  | _ :: _, [] => false
  | a :: as, b :: bs => a = b && isPrefixB as bs

def isInfixB (pat : Str) : Str → Bool
  | [] => isPrefixB pat []
  | c :: rest => isPrefixB pat (c :: rest) || isInfixB pat rest

def splitOnChar (sep : Char) : Str → List Str
  | [] => [[]]
  | c :: rest =>
    let r := splitOnChar sep rest
    if c = sep then [] :: r else (c :: r.headD []) :: r.tail

def joinWith (sep : Char) : List Str → Str
  | [] => []
  | [l] => l
  | l :: ls => l ++ sep :: joinWith sep ls

def endsWithSlash (s : Str) : Bool := s.getLast? == some '/'

def pathComponents (p : Str) : List Str :=
  (splitOnChar '/' p).filter (fun l => !l.isEmpty)

def joinPath (ls : List Str) : Str := joinWith '/' ls

def pathJoin (base p : Str) : Str :=
  if endsWithSlash base then base ++ p else base ++ '/' :: p

def parentPath (p : Str) : Str := joinPath (pathComponents p).dropLast

def ancestors (p : Str) : List Str :=
  (List.range (pathComponents p).length).map
    (fun k => joinPath ((pathComponents p).take (k + 1)))

structure FS where
  dirs : List Str
  files : List (Str × Bytes)
deriving DecidableEq

def FS.hasDir (fs : FS) (d : Str) : Bool := fs.dirs.contains d

/- `std::fs::create_dir_all`: creates the directory and every ancestor. -/
def FS.createDirAll (fs : FS) (p : Str) : FS :=
  { fs with dirs := fs.dirs ++ ancestors p }

/- `std::fs::File::create`: truncating create; fails when the parent
   directory does not exist.  The source never calls `create_dir_all` for the
   parent of a copied file. -/
def FS.createFile (fs : FS) (p : Str) (data : Bytes) : Option FS :=
  if fs.hasDir (parentPath p) then
    some { fs with files := (p, data) :: fs.files.filter (fun q => q.1 != p) }
  else none

structure Entry where
  name : Str
  data : Bytes
deriving DecidableEq

/- The `Options` struct of main.rs, field for field. -/
structure Options where
  width : Nat
  file_artifacts : Bool
  output_format : Str
  output_text_file : Str
  output_dir : Str
  input_file : Str
deriving DecidableEq

def Options.default : Options :=
  { width := 80
    file_artifacts := false
    output_format := str "trivial"
    output_text_file := str "./html_text.txt"
    output_dir := str "./rest"
    input_file := str "" }

def Options.new : Options := Options.default

def Options.set_width (o : Options) (w : Nat) : Options := { o with width := w }

def Options.set_artifacts (o : Options) (a : Bool) : Options :=
  { o with file_artifacts := a }

def Options.set_format (o : Options) (fmt : Str) : Options :=
  { o with output_format := fmt }

/- `enum MyError { Io(std::io::Error), Msg(&'static str) }`; `Io` carries the
   display text of the wrapped `io::Error`. -/
inductive MyError where
  | Io : Str → MyError
  | Msg : Str → MyError
deriving DecidableEq

/- The `Display` impl: both variants print their payload. -/
def MyError.display : MyError → Str
  | .Io e => e
  | .Msg e => e

/- The three decorators of html2text selected by the format dispatch. -/
inductive Decorator where
  | trivialDec
  | plainDec
  | richDec
deriving DecidableEq

/- A run either panics (`unreachable!()`) or fails with a `MyError`. -/
inductive RunErr where
  | panicked
  | failed : MyError → RunErr
deriving DecidableEq

structure RunState where
  fs : FS
  out_text : Str
  out_truncated : Bool
  write_count : Nat
  sniffed : List Str
  rendered : List Str
deriving DecidableEq

/- The result of `parser.parse(None)` for the five registered templates. -/
structure ParsedArgs where
  input : Option Str
  output : Option (Str × Str)
  width : Option Str
  artifacts : Bool
  format : Option Str
deriving DecidableEq

structure Env where
  args : Except Str ParsedArgs
  input_exists : Str → Bool
  open_input : Option Str
  new_archive_ok : Bool
  extract_archive_ok : Bool
  open_output_text : Option Str
  create_output_dir : Option Str
  entries : List Entry
  enclosed_name : Str → Option Str
  file_cmd : Str → Except Str (Option Str)
  render : Decorator → Nat → Bytes → Str
  write_ok : Nat → Bool
  remove_ok : Bool

def EXTRACT_PATH : Str := str "/tmp/rusty-html-extractor/"

/- `output_text.write(...).ok()`: the result is discarded, the bytes land in
   the file only when the write succeeds. -/
def writeIgnored (env : Env) (st : RunState) (s : Str) : RunState :=
  if env.write_ok st.write_count then
    { st with out_text := st.out_text ++ s, write_count := st.write_count + 1 }
  else
    { st with write_count := st.write_count + 1 }

/- `output_text.write_all(...)?`: failure is returned to the caller. -/
def writeAllFatal (env : Env) (st : RunState) (s : Str) :
    RunState × Option MyError :=
  if env.write_ok st.write_count then
    ({ st with out_text := st.out_text ++ s, write_count := st.write_count + 1 },
      none)
  else
    ({ st with write_count := st.write_count + 1 },
      some (.Io (str "output write error")))

/- `.lines().filter(|l| !l.is_empty()).collect::<Vec<_>>().join("\n")`. -/
def filteredJoin (s : Str) : Str :=
  joinWith '\n' ((splitOnChar '\n' s).filter (fun l => !l.isEmpty))

/- The `match &opts.output_format[..]` dispatch; `none` is the
   `_ => unreachable!()` arm. -/
def renderDispatch (env : Env) (fmt : Str) (width : Nat) (data : Bytes) :
    Option Str :=
  if fmt = str "trivial" then some (env.render .trivialDec width data)
  else if fmt = str "plain" then some (env.render .plainDec width data)
  else if fmt = str "rich" then some (env.render .richDec width data)
  else none

def beginMarker (name : Str) : Str := str "# begin " ++ name ++ ['\n']

def endMarker (name : Str) : Str := str "# end " ++ name ++ ['\n']

/- The HTML arm of the loop body (main.rs lines 126-163): optional begin
   marker whose write result is discarded, the format dispatch (whose
   wildcard arm is `unreachable!()`), the fatal `write_all` of the filtered
   joined text, and the optional end marker whose write result is discarded
   as well.  `st1` is the loop state after the `file` invocation was
   recorded. -/
def htmlBranch (env : Env) (opts : Options) (st1 : RunState) (name : Str)
    (data : Bytes) : RunState × Option RunErr :=
  let st2 := if opts.file_artifacts then writeIgnored env st1 (beginMarker name)
    else st1
  match renderDispatch env opts.output_format opts.width data with
  | none => (st2, some .panicked)
  | some html_text =>
    let st3 := { st2 with rendered := st2.rendered ++ [name] }
    match writeAllFatal env st3 (filteredJoin html_text) with
    | (st4, some er) => (st4, some (.failed er))
    | (st4, none) =>
      (if opts.file_artifacts then writeIgnored env st4 (endMarker name)
        else st4, none)

/- One iteration of the `for i in 0..archive.len()` loop body
   (main.rs lines 105-167).  `sniffed` records each path handed to the
   external `file` process, `rendered` records each entry name handed to
   html2text, in order. -/
def processEntry (env : Env) (opts : Options) (output_dir : Str)
    (st : RunState) (e : Entry) : RunState × Option RunErr :=
  match env.enclosed_name e.name with
  | none => (st, none)
  | some fname =>
    if endsWithSlash fname then
      ({ st with fs := st.fs.createDirAll (pathJoin output_dir fname) }, none)
    else
      let st1 := { st with sniffed := st.sniffed ++ [pathJoin EXTRACT_PATH e.name] }
      match env.file_cmd (pathJoin EXTRACT_PATH e.name) with
      | .error m => (st1, some (.failed (.Io m)))
      | .ok out =>
        if isInfixB (str "html document") (lowerStr (out.getD (str "file"))) then
          htmlBranch env opts st1 e.name e.data
        else
          match st1.fs.createFile (pathJoin output_dir fname) e.data with
          | none => (st1, some (.failed (.Io (str "No such file or directory"))))
          | some fs2 => ({ st1 with fs := fs2 }, none)

def processEntries (env : Env) (opts : Options) (output_dir : Str) :
    RunState → List Entry → RunState × Option RunErr
  | st, [] => (st, none)
  | st, e :: rest =>
    match processEntry env opts output_dir st e with
    | (st1, some er) => (st1, some er)
    | (st1, none) => processEntries env opts output_dir st1 rest

/- `fn parse(opts: Options) -> Result<(), MyError>` (main.rs lines 91-170),
   returning the filesystem/output state reached together with the error, if
   any. -/
def parse (env : Env) (opts : Options) (st0 : RunState) :
    RunState × Option RunErr :=
  if !env.input_exists opts.input_file then
    (st0, some (.failed (.Msg (str "Input file does not exist"))))
  else
    match env.open_input with
    | some m => (st0, some (.failed (.Io m)))
    | none =>
      if !env.new_archive_ok then
        (st0, some (.failed (.Msg (str "Zip error occured"))))
      else if !env.extract_archive_ok then
        (st0, some (.failed (.Msg (str "Zip error occured"))))
      else
        match env.open_output_text with
        | some m => (st0, some (.failed (.Io m)))
        | none =>
          let st1 := { st0 with out_truncated := true }
          match env.create_output_dir with
          | some m => (st1, some (.failed (.Io m)))
          | none =>
            let st2 := { st1 with fs := st1.fs.createDirAll opts.output_dir }
            processEntries env opts opts.output_dir st2 env.entries

def digitVal (c : Char) : Option Nat :=
  if '0' ≤ c ∧ c ≤ '9' then some (c.toNat - '0'.toNat) else none

def parseDigits (s : Str) : Option Nat :=
  s.foldl (fun acc c => acc.bind (fun n => (digitVal c).map (fun d => n * 10 + d)))
    (some 0)

/- `str::parse::<u32>`: optional leading '+', at least one digit, value below
   2^32. -/
def parseU32 (s : Str) : Option Nat :=
  let t := match s with
    | '+' :: rest => rest
    | _ => s
  match t with
  | [] => none
  | _ =>
    match parseDigits t with
    | none => none
    | some n => if n < 2 ^ 32 then some n else none

/- `opts.set_width(pargs.get_with_id(wh).unwrap().values()[0].parse()?)`;
   a `ParseIntError` becomes `Msg("Not a number.")` and leaves `main`. -/
def applyWidth (pargs : ParsedArgs) (opts : Options) : Except MyError Options :=
  match pargs.width with
  | none => .ok opts
  | some w =>
    match parseU32 w with
    | none => .error (.Msg (str "Not a number."))
    | some n => .ok (opts.set_width n)

/- The `match &str[..]` over the format value; the wildcard arm is
   `return Err("Unrecognized format.".into())`. -/
def applyFormat (pargs : ParsedArgs) (opts : Options) : Except MyError Options :=
  match pargs.format with
  | none => .ok opts
  | some s =>
    if s = str "plain" then .ok (opts.set_format (str "plain"))
    else if s = str "trivial" then .ok (opts.set_format (str "trivial"))
    else if s = str "rich" then .ok (opts.set_format (str "rich"))
    else .error (.Msg (str "Unrecognized format."))

/- `Options::new()` with the input flag value, then the optional output pair
   override (lines 219-225). -/
def baseOpts (pargs : ParsedArgs) (input_val : Str) : Options :=
  let o1 := { Options.default with input_file := input_val }
  match pargs.output with
  | some td => { o1 with output_text_file := td.1, output_dir := td.2 }
  | none => o1

/- Construction of the `Options` record inside `main` (lines 219-240), given
   that the input flag is present with value `input_val`. -/
def mainBuildOpts (pargs : ParsedArgs) (input_val : Str) :
    Except MyError Options :=
  match applyWidth pargs (baseOpts pargs input_val) with
  | .error er => .error er
  | .ok o3 =>
    let o4 := if pargs.artifacts then o3.set_artifacts true else o3
    applyFormat pargs o4

structure MainOutcome where
  stdout_lines : List Str
  removal_attempted : Bool
  exit_ok : Bool
  final : RunState
deriving DecidableEq

/- `fn main() -> Result<(), MyError>` (lines 172-250).  `stdout_lines` are the
   `println!` calls in order; `removal_attempted` records whether
   `std::fs::remove_dir_all(EXTRACT_PATH)` was reached; `exit_ok` is `true`
   iff `main` returns `Ok`, i.e. the process exit status is success.  A width
   or format error propagates out of `main` with `?`/`return Err`, printing
   nothing to standard output.  A panic aborts the process before the removal
   line. -/
def mainRun (env : Env) (st0 : RunState) : MainOutcome :=
  match env.args with
  | .error e =>
    { stdout_lines := [e], removal_attempted := false, exit_ok := true,
      final := st0 }
  | .ok pargs =>
    match pargs.input with
    | none =>
      { stdout_lines := [], removal_attempted := false, exit_ok := true,
        final := st0 }
    | some input_val =>
      match mainBuildOpts pargs input_val with
      | .error _ =>
        { stdout_lines := [], removal_attempted := false, exit_ok := false,
          final := st0 }
      | .ok opts =>
        match parse env opts st0 with
        | (st1, some .panicked) =>
          { stdout_lines := [], removal_attempted := false, exit_ok := false,
            final := st1 }
        | (st1, some (.failed er)) =>
          { stdout_lines := [str "ERROR OCCURED: " ++ er.display],
            removal_attempted := true, exit_ok := env.remove_ok, final := st1 }
        | (st1, none) =>
          { stdout_lines := [], removal_attempted := true,
            exit_ok := env.remove_ok, final := st1 }

/- The classification the loop body applies to one entry, read off the branch
   structure of `processEntry`. -/
inductive EntryClass where
  | skipped
  | dir
  | sniffErr
  | html
  | other
deriving DecidableEq

def classify (env : Env) (e : Entry) : EntryClass :=
  match env.enclosed_name e.name with
  | none => .skipped
  | some fname =>
    if endsWithSlash fname then .dir
    else
      match env.file_cmd (pathJoin EXTRACT_PATH e.name) with
      | .error _ => .sniffErr
      | .ok out =>
        if isInfixB (str "html document") (lowerStr (out.getD (str "file"))) then
          .html
        else .other

def formatValid (f : Str) : Bool :=
  (f == str "trivial") || (f == str "plain") || (f == str "rich")

/- Concrete environments and states used to exercise the theorems. -/

def initState : RunState :=
  { fs := { dirs := [str "."], files := [] }
    out_text := []
    out_truncated := false
    write_count := 0
    sniffed := []
    rendered := [] }

def noEnv : Env :=
  { args := .error (str "parse error")
    input_exists := fun _ => false
    open_input := none
    new_archive_ok := true
    extract_archive_ok := true
    open_output_text := none
    create_output_dir := none
    entries := []
    enclosed_name := fun _ => none
    file_cmd := fun _ => .ok none
    render := fun _ _ _ => []
    write_ok := fun _ => true
    remove_ok := true }

/- Helper lemmas shared by the claim theorems. -/

theorem writeIgnored_rendered (env : Env) (st : RunState) (s : Str) :
    (writeIgnored env st s).rendered = st.rendered := by
  unfold writeIgnored; split <;> rfl

theorem writeIgnored_sniffed (env : Env) (st : RunState) (s : Str) :
    (writeIgnored env st s).sniffed = st.sniffed := by
  unfold writeIgnored; split <;> rfl

theorem writeIgnored_fs (env : Env) (st : RunState) (s : Str) :
    (writeIgnored env st s).fs = st.fs := by
  unfold writeIgnored; split <;> rfl

theorem writeAllFatal_rendered (env : Env) (st : RunState) (s : Str) :
    (writeAllFatal env st s).1.rendered = st.rendered := by
  unfold writeAllFatal; split <;> rfl

theorem writeAllFatal_sniffed (env : Env) (st : RunState) (s : Str) :
    (writeAllFatal env st s).1.sniffed = st.sniffed := by
  unfold writeAllFatal; split <;> rfl

theorem writeAllFatal_fs (env : Env) (st : RunState) (s : Str) :
    (writeAllFatal env st s).1.fs = st.fs := by
  unfold writeAllFatal; split <;> rfl

theorem renderDispatch_eq_none (env : Env) (f : Str) (w : Nat) (d : Bytes) :
    renderDispatch env f w d = none ↔ formatValid f = false := by
  have e1 : (str "plain" = str "trivial") = False := eq_false (by decide)
  have e2 : (str "rich" = str "trivial") = False := eq_false (by decide)
  have e3 : (str "rich" = str "plain") = False := eq_false (by decide)
  by_cases h1 : f = str "trivial" <;> by_cases h2 : f = str "plain" <;>
    by_cases h3 : f = str "rich" <;>
    simp [renderDispatch, formatValid, h1, h2, h3, e1, e2, e3]

theorem renderDispatch_valid_isSome (env : Env) (f : Str) (w : Nat) (d : Bytes)
    (h : formatValid f = true) : ∃ t, renderDispatch env f w d = some t := by
  cases hr : renderDispatch env f w d with
  | none => rw [renderDispatch_eq_none] at hr; rw [hr] at h; cases h
  | some t => exact ⟨t, rfl⟩

theorem writeIgnored_write_count (env : Env) (st : RunState) (s : Str) :
    (writeIgnored env st s).write_count = st.write_count + 1 := by
  unfold writeIgnored; split <;> rfl

theorem maybeWrite_rendered (env : Env) (b : Bool) (st : RunState) (s : Str) :
    (if b then writeIgnored env st s else st).rendered = st.rendered := by
  cases b <;> simp [writeIgnored_rendered]

theorem maybeWrite_sniffed (env : Env) (b : Bool) (st : RunState) (s : Str) :
    (if b then writeIgnored env st s else st).sniffed = st.sniffed := by
  cases b <;> simp [writeIgnored_sniffed]

theorem maybeWrite_fs (env : Env) (b : Bool) (st : RunState) (s : Str) :
    (if b then writeIgnored env st s else st).fs = st.fs := by
  cases b <;> simp [writeIgnored_fs]

theorem maybeWrite_write_count (env : Env) (b : Bool) (st : RunState) (s : Str) :
    (if b then writeIgnored env st s else st).write_count =
      st.write_count + (if b then 1 else 0) := by
  cases b <;> simp [writeIgnored_write_count]

theorem htmlBranch_rendered (env : Env) (opts : Options) (st1 : RunState)
    (name : Str) (data : Bytes) (t : Str)
    (ht : renderDispatch env opts.output_format opts.width data = some t) :
    (htmlBranch env opts st1 name data).1.rendered = st1.rendered ++ [name] := by
  unfold htmlBranch
  rw [ht]
  by_cases hb : env.write_ok (st1.write_count +
      (if opts.file_artifacts then 1 else 0)) = true <;>
    simp [writeAllFatal, maybeWrite_write_count, hb, maybeWrite_rendered]

theorem htmlBranch_sniffed (env : Env) (opts : Options) (st1 : RunState)
    (name : Str) (data : Bytes) (t : Str)
    (ht : renderDispatch env opts.output_format opts.width data = some t) :
    (htmlBranch env opts st1 name data).1.sniffed = st1.sniffed := by
  unfold htmlBranch
  rw [ht]
  by_cases hb : env.write_ok (st1.write_count +
      (if opts.file_artifacts then 1 else 0)) = true <;>
    simp [writeAllFatal, maybeWrite_write_count, hb, maybeWrite_sniffed]

theorem htmlBranch_fs (env : Env) (opts : Options) (st1 : RunState)
    (name : Str) (data : Bytes) (t : Str)
    (ht : renderDispatch env opts.output_format opts.width data = some t) :
    (htmlBranch env opts st1 name data).1.fs = st1.fs := by
  unfold htmlBranch
  rw [ht]
  by_cases hb : env.write_ok (st1.write_count +
      (if opts.file_artifacts then 1 else 0)) = true <;>
    simp [writeAllFatal, maybeWrite_write_count, hb, maybeWrite_fs]

/- The step fails exactly when the `write_all` of the body fails; marker
   writes never decide the outcome.  The body write is write number
   `st1.write_count + 1` when the begin marker was attempted, else
   `st1.write_count`. -/
theorem htmlBranch_err_iff (env : Env) (opts : Options) (st1 : RunState)
    (name : Str) (data : Bytes) (t : Str)
    (ht : renderDispatch env opts.output_format opts.width data = some t) :
    ((htmlBranch env opts st1 name data).2 ≠ none ↔
      env.write_ok (st1.write_count +
        (if opts.file_artifacts then 1 else 0)) = false) ∧
    ((htmlBranch env opts st1 name data).2 = none ∨
      (htmlBranch env opts st1 name data).2 =
        some (.failed (.Io (str "output write error")))) := by
  unfold htmlBranch
  rw [ht]
  by_cases hb : env.write_ok (st1.write_count +
      (if opts.file_artifacts then 1 else 0)) = true <;>
    simp [writeAllFatal, maybeWrite_write_count, hb]

theorem htmlBranch_ok_result (env : Env) (opts : Options) (st1 : RunState)
    (name : Str) (data : Bytes) (t : Str)
    (ht : renderDispatch env opts.output_format opts.width data = some t)
    (hw : ∀ n, env.write_ok n = true) :
    (htmlBranch env opts st1 name data).2 = none ∧
    (htmlBranch env opts st1 name data).1.out_text =
      st1.out_text ++ (if opts.file_artifacts then beginMarker name else []) ++
        filteredJoin t ++
        (if opts.file_artifacts then endMarker name else []) := by
  unfold htmlBranch
  rw [ht]
  cases ha : opts.file_artifacts <;>
    simp [ha, writeIgnored, writeAllFatal, hw, List.append_assoc]

/-- C7: if the input path does not exist, `parse` fails immediately with the
missing-input-file error, leaving the run state untouched: the output text
file is not opened or truncated, and no file or directory is created. -/
theorem C7_missing_input (env : Env) (opts : Options) (st0 : RunState)
    (h : env.input_exists opts.input_file = false) :
    parse env opts st0 =
      (st0, some (.failed (.Msg (str "Input file does not exist")))) := by
  simp [parse, h]

theorem C7_missing_input_witness :
    parse noEnv Options.default initState =
      (initState, some (.failed (.Msg (str "Input file does not exist")))) :=
  C7_missing_input noEnv Options.default initState (by decide)

/-- C9: an entry whose stored name cannot be sanitized (`enclosed_name`
returns `none`) is silently skipped: no error, no change to the output text,
the filesystem, or any trace, and processing continues with the remaining
entries. -/
theorem C9_unsanitizable_skipped (env : Env) (opts : Options)
    (output_dir : Str) (st : RunState) (e : Entry) (rest : List Entry)
    (h : env.enclosed_name e.name = none) :
    processEntry env opts output_dir st e = (st, none) ∧
    processEntries env opts output_dir st (e :: rest) =
      processEntries env opts output_dir st rest := by
  refine ⟨by simp [processEntry, h], ?_⟩
  simp [processEntries, processEntry, h]

/-- C4: a non-directory entry with a sanitizable name and a decodable result
from the external `file` process is classified as an HTML document iff the
lowercased process output contains the substring "html document"; a non-UTF-8
output (decoded as `none`, defaulted to "file") is never classified as HTML.
The classification is what decides whether the entry is handed to the HTML
renderer: the rendered-trace grows by the entry's name exactly in the HTML
case. -/
theorem C4_html_classification (env : Env) (opts : Options) (output_dir : Str)
    (st : RunState) (e : Entry) (fname : Str) (out : Option Str)
    (h1 : env.enclosed_name e.name = some fname)
    (h2 : endsWithSlash fname = false)
    (h3 : env.file_cmd (pathJoin EXTRACT_PATH e.name) = .ok out)
    (hfmt : formatValid opts.output_format = true) :
    (classify env e = .html ↔
      isInfixB (str "html document") (lowerStr (out.getD (str "file"))) = true) ∧
    (out = none → ¬ classify env e = .html) ∧
    ((processEntry env opts output_dir st e).1.rendered =
        st.rendered ++ [e.name] ↔ classify env e = .html) ∧
    ((processEntry env opts output_dir st e).1.rendered = st.rendered ↔
      ¬ classify env e = .html) := by
  obtain ⟨t, ht⟩ :=
    renderDispatch_valid_isSome env opts.output_format opts.width e.data hfmt
  by_cases hinf :
      isInfixB (str "html document") (lowerStr (out.getD (str "file"))) = true
  · have hc : classify env e = .html := by simp [classify, h1, h2, h3, hinf]
    have hr := htmlBranch_rendered env opts
      { st with sniffed := st.sniffed ++ [pathJoin EXTRACT_PATH e.name] }
      e.name e.data t ht
    refine ⟨by simp [hc, hinf], ?_, ?_, ?_⟩
    · rintro rfl
      exact absurd hinf (by decide)
    · simp [processEntry, h1, h2, h3, hinf, hc, hr]
    · simp [processEntry, h1, h2, h3, hinf, hc, hr]
  · have hc : classify env e = .other := by simp [classify, h1, h2, h3, hinf]
    cases hcf : st.fs.createFile (pathJoin output_dir fname) e.data with
    | none =>
      refine ⟨by simp [hc, hinf], by simp [hc], ?_, ?_⟩ <;>
        simp [processEntry, h1, h2, h3, hinf, hc, hcf]
    | some fs2 =>
      refine ⟨by simp [hc, hinf], by simp [hc], ?_, ?_⟩ <;>
        simp [processEntry, h1, h2, h3, hinf, hc, hcf]

def envC4 : Env :=
  { noEnv with
    input_exists := fun _ => true
    enclosed_name := fun n => some n
    file_cmd := fun _ => .ok (some (str "HTML document, UTF-8 text")) }

def entryC4 : Entry := ⟨str "a.html", [60]⟩

theorem C4_html_classification_witness :
    (classify envC4 entryC4 = .html ↔
      isInfixB (str "html document")
        (lowerStr ((some (str "HTML document, UTF-8 text")).getD (str "file"))) =
        true) ∧
    ((some (str "HTML document, UTF-8 text") : Option Str) = none →
      ¬ classify envC4 entryC4 = .html) ∧
    ((processEntry envC4 Options.default (str "./rest") initState
        entryC4).1.rendered =
        initState.rendered ++ [entryC4.name] ↔ classify envC4 entryC4 = .html) ∧
    ((processEntry envC4 Options.default (str "./rest") initState
        entryC4).1.rendered = initState.rendered ↔
      ¬ classify envC4 entryC4 = .html) :=
  C4_html_classification envC4 Options.default (str "./rest") initState entryC4
    (str "a.html") (some (str "HTML document, UTF-8 text")) rfl (by decide) rfl
    (by decide)

/-- C5: for an entry classified as HTML, when every write succeeds, the bytes
appended to the output text file are: the line `# begin <entry-name>` when the
artifact flag is on, then the rendered text with all empty lines removed and
the remaining lines joined by newlines, then the line `# end <entry-name>`
when the flag is on; with the flag off, only the filtered joined text. -/
theorem C5_artifact_wrapping (env : Env) (opts : Options) (output_dir : Str)
    (st : RunState) (e : Entry) (fname : Str) (out : Option Str)
    (h1 : env.enclosed_name e.name = some fname)
    (h2 : endsWithSlash fname = false)
    (h3 : env.file_cmd (pathJoin EXTRACT_PATH e.name) = .ok out)
    (hinf : isInfixB (str "html document") (lowerStr (out.getD (str "file"))) =
      true)
    (hfmt : formatValid opts.output_format = true)
    (hw : ∀ n, env.write_ok n = true) :
    ∃ html_text,
      renderDispatch env opts.output_format opts.width e.data = some html_text ∧
      (processEntry env opts output_dir st e).2 = none ∧
      (processEntry env opts output_dir st e).1.out_text =
        st.out_text ++
          (if opts.file_artifacts then beginMarker e.name else []) ++
          filteredJoin html_text ++
          (if opts.file_artifacts then endMarker e.name else []) := by
  obtain ⟨t, ht⟩ :=
    renderDispatch_valid_isSome env opts.output_format opts.width e.data hfmt
  obtain ⟨hok, hout⟩ := htmlBranch_ok_result env opts
    { st with sniffed := st.sniffed ++ [pathJoin EXTRACT_PATH e.name] }
    e.name e.data t ht hw
  exact ⟨t, ht, by simp [processEntry, h1, h2, h3, hinf, hok],
    by simp [processEntry, h1, h2, h3, hinf, hout]⟩

def envC5 : Env :=
  { noEnv with
    input_exists := fun _ => true
    enclosed_name := fun n => some n
    file_cmd := fun _ => .ok (some (str "HTML document"))
    render := fun _ _ _ => str "Hello\n\nWorld\n" }

def optsC5 : Options := { Options.default with file_artifacts := true }

def entryC5 : Entry := ⟨str "a.html", [60]⟩

theorem C5_artifact_wrapping_witness :
    (processEntry envC5 optsC5 (str "./rest") initState entryC5).2 = none ∧
    (processEntry envC5 optsC5 (str "./rest") initState entryC5).1.out_text =
      str "# begin a.html\nHello\nWorld# end a.html\n" := by
  obtain ⟨t, ht, hok, hout⟩ := C5_artifact_wrapping envC5 optsC5 (str "./rest")
    initState entryC5 (str "a.html") (some (str "HTML document")) rfl
    (by decide) rfl (by decide) (by decide) (fun n => rfl)
  have he : renderDispatch envC5 optsC5.output_format optsC5.width
      entryC5.data = some (str "Hello\n\nWorld\n") := by decide
  rw [he] at ht
  cases ht
  rw [hout]
  refine ⟨hok, ?_⟩
  decide

/-- C6 (amended): a failure of the fatal `write_all` of the rendered body
aborts the step with an I/O error, and that is the only write failure that
does; failures of the begin/end artifact marker writes are silently discarded
(`.ok()`), so they never abort the run. -/
theorem C6_write_failure_amended (env : Env) (opts : Options) (output_dir : Str)
    (st : RunState) (e : Entry) (fname : Str) (out : Option Str)
    (h1 : env.enclosed_name e.name = some fname)
    (h2 : endsWithSlash fname = false)
    (h3 : env.file_cmd (pathJoin EXTRACT_PATH e.name) = .ok out)
    (hinf : isInfixB (str "html document") (lowerStr (out.getD (str "file"))) =
      true)
    (hfmt : formatValid opts.output_format = true) :
    ((processEntry env opts output_dir st e).2 ≠ none ↔
      env.write_ok (st.write_count +
        (if opts.file_artifacts then 1 else 0)) = false) ∧
    ((processEntry env opts output_dir st e).2 = none ∨
      (processEntry env opts output_dir st e).2 =
        some (.failed (.Io (str "output write error")))) := by
  obtain ⟨t, ht⟩ :=
    renderDispatch_valid_isSome env opts.output_format opts.width e.data hfmt
  obtain ⟨hiff, hdisj⟩ := htmlBranch_err_iff env opts
    { st with sniffed := st.sniffed ++ [pathJoin EXTRACT_PATH e.name] }
    e.name e.data t ht
  constructor
  · simpa [processEntry, h1, h2, h3, hinf] using hiff
  · simpa [processEntry, h1, h2, h3, hinf] using hdisj

def envC6 : Env :=
  { noEnv with
    input_exists := fun _ => true
    enclosed_name := fun n => some n
    file_cmd := fun _ => .ok (some (str "HTML document"))
    render := fun _ _ _ => str "Hello"
    write_ok := fun n => n != 0 }

def optsC6 : Options := { Options.default with file_artifacts := true }

def entryC6 : Entry := ⟨str "a.html", [60]⟩

theorem C6_counterexample :
    envC6.write_ok 0 = false ∧
    (processEntry envC6 optsC6 (str "./rest") initState entryC6).2 = none ∧
    (processEntry envC6 optsC6 (str "./rest") initState entryC6).1.out_text =
      str "Hello# end a.html\n" := by
  decide

def envC6w : Env :=
  { noEnv with
    input_exists := fun _ => true
    enclosed_name := fun n => some n
    file_cmd := fun _ => .ok (some (str "HTML document"))
    render := fun _ _ _ => str "Hi"
    write_ok := fun n => n != 1 }

theorem C6_write_failure_amended_witness :
    ((processEntry envC6w optsC6 (str "./rest") initState entryC6).2 ≠ none ↔
      envC6w.write_ok (initState.write_count +
        (if optsC6.file_artifacts then 1 else 0)) = false) ∧
    ((processEntry envC6w optsC6 (str "./rest") initState entryC6).2 = none ∨
      (processEntry envC6w optsC6 (str "./rest") initState entryC6).2 =
        some (.failed (.Io (str "output write error")))) :=
  C6_write_failure_amended envC6w optsC6 (str "./rest") initState entryC6
    (str "a.html") (some (str "HTML document")) rfl (by decide) rfl (by decide)
    (by decide)

theorem processEntry_ok_traces (env : Env) (opts : Options) (output_dir : Str)
    (st : RunState) (e : Entry)
    (h : (processEntry env opts output_dir st e).2 = none) :
    (processEntry env opts output_dir st e).1.rendered =
      st.rendered ++ (if classify env e = .html then [e.name] else []) ∧
    (processEntry env opts output_dir st e).1.sniffed =
      st.sniffed ++
        (if classify env e = .skipped ∨ classify env e = .dir then []
          else [pathJoin EXTRACT_PATH e.name]) := by
  cases henc : env.enclosed_name e.name with
  | none =>
    have hc : classify env e = .skipped := by simp [classify, henc]
    simp [processEntry, henc, hc]
  | some fname =>
    by_cases hdir : endsWithSlash fname = true
    · have hc : classify env e = .dir := by simp [classify, henc, hdir]
      simp [processEntry, henc, hdir, hc]
    · rw [Bool.not_eq_true] at hdir
      cases hcmd : env.file_cmd (pathJoin EXTRACT_PATH e.name) with
      | error m =>
        simp [processEntry, henc, hdir, hcmd] at h
      | ok out =>
        by_cases hinf : isInfixB (str "html document")
            (lowerStr (out.getD (str "file"))) = true
        · have hc : classify env e = .html := by
            simp [classify, henc, hdir, hcmd, hinf]
          cases ht : renderDispatch env opts.output_format opts.width e.data with
          | none =>
            simp [processEntry, henc, hdir, hcmd, hinf, htmlBranch, ht] at h
          | some t =>
            have hr := htmlBranch_rendered env opts
              { st with sniffed := st.sniffed ++ [pathJoin EXTRACT_PATH e.name] }
              e.name e.data t ht
            have hs := htmlBranch_sniffed env opts
              { st with sniffed := st.sniffed ++ [pathJoin EXTRACT_PATH e.name] }
              e.name e.data t ht
            simp [processEntry, henc, hdir, hcmd, hinf, hc, hr, hs]
        · have hc : classify env e = .other := by
            simp [classify, henc, hdir, hcmd, hinf]
          cases hcf : st.fs.createFile (pathJoin output_dir fname) e.data with
          | none =>
            simp [processEntry, henc, hdir, hcmd, hinf, hcf] at h
          | some fs2 =>
            simp [processEntry, henc, hdir, hcmd, hinf, hcf, hc]

/-- C8: entries are processed in archive storage order, each exactly once: on
a successful pass, the renderer trace equals the names of the HTML-classified
entries in archive order (so the output text file's concatenation order is the
archive traversal order), and the content-sniffing trace equals the
non-skipped, non-directory entries in archive order — in particular an entry
whose sanitized name ends in '/' is classified as a directory before any
content check and is never passed to the content-sniffing process nor to the
HTML renderer. -/
theorem C8_traversal_order (env : Env) (opts : Options) (output_dir : Str) :
    ∀ (es : List Entry) (st0 : RunState),
      (processEntries env opts output_dir st0 es).2 = none →
      (processEntries env opts output_dir st0 es).1.rendered =
        st0.rendered ++
          ((es.filter fun e => decide (classify env e = .html)).map Entry.name) ∧
      (processEntries env opts output_dir st0 es).1.sniffed =
        st0.sniffed ++
          ((es.filter fun e =>
              decide (¬(classify env e = .skipped ∨ classify env e = .dir))).map
            fun e => pathJoin EXTRACT_PATH e.name) := by
  intro es
  induction es with
  | nil => intro st0 h; simp [processEntries]
  | cons e rest ih =>
    intro st0 h
    rcases hstep : processEntry env opts output_dir st0 e with ⟨st1, er⟩
    cases er with
    | some er => simp [processEntries, hstep] at h
    | none =>
      have hh : (processEntry env opts output_dir st0 e).2 = none := by
        rw [hstep]
      obtain ⟨hr, hs⟩ := processEntry_ok_traces env opts output_dir st0 e hh
      rw [hstep] at hr hs
      have hrun : processEntries env opts output_dir st0 (e :: rest) =
          processEntries env opts output_dir st1 rest := by
        simp [processEntries, hstep]
      have h' : (processEntries env opts output_dir st1 rest).2 = none := by
        rw [← hrun]; exact h
      obtain ⟨ihr, ihs⟩ := ih st1 h'
      rw [hrun, ihr, ihs, hr, hs]
      constructor
      · by_cases hc : classify env e = .html <;>
          simp [hc, List.filter_cons, List.append_assoc]
      · by_cases hc2 : classify env e = .skipped ∨ classify env e = .dir
        · simp [hc2, List.filter_cons, List.append_assoc]
          rw [if_neg (by tauto)]
        · simp [hc2, List.filter_cons, List.append_assoc]
          rw [if_pos (by tauto)]
          simp

def stC8 : RunState :=
  { fs := { dirs := [str ".", str "./rest"], files := [] }
    out_text := []
    out_truncated := true
    write_count := 0
    sniffed := []
    rendered := [] }

def envC8 : Env :=
  { noEnv with
    input_exists := fun _ => true
    enclosed_name := fun n => some n
    file_cmd := fun p =>
      .ok (some (if isInfixB (str "html") p then str "HTML document"
        else str "ASCII text"))
    render := fun _ _ _ => str "X" }

def esC8 : List Entry :=
  [⟨str "sub/", []⟩, ⟨str "a.html", [60]⟩, ⟨str "b.txt", [98]⟩]

theorem C8_traversal_order_witness :
    (processEntries envC8 Options.default (str "./rest") stC8 esC8).1.rendered =
      stC8.rendered ++
        ((esC8.filter fun e => decide (classify envC8 e = .html)).map
          Entry.name) ∧
    (processEntries envC8 Options.default (str "./rest") stC8 esC8).1.sniffed =
      stC8.sniffed ++
        ((esC8.filter fun e =>
            decide (¬(classify envC8 e = .skipped ∨ classify envC8 e = .dir))).map
          fun e => pathJoin EXTRACT_PATH e.name) :=
  C8_traversal_order envC8 Options.default (str "./rest") esC8 stC8 (by decide)

def envC9 : Env := { noEnv with entries := [⟨str "../evil", [1]⟩] }

theorem C9_unsanitizable_skipped_witness :
    processEntry envC9 Options.default (str "./rest") initState
      ⟨str "../evil", [1]⟩ = (initState, none) ∧
    processEntries envC9 Options.default (str "./rest") initState
      [⟨str "../evil", [1]⟩] =
      processEntries envC9 Options.default (str "./rest") initState [] :=
  C9_unsanitizable_skipped envC9 Options.default (str "./rest") initState
    ⟨str "../evil", [1]⟩ [] (by decide)

/- No-panic chain: a valid output format makes the `unreachable!()` arm of the
   render dispatch dead. -/

theorem processEntry_no_panic (env : Env) (opts : Options) (output_dir : Str)
    (st : RunState) (e : Entry)
    (hfmt : formatValid opts.output_format = true) :
    (processEntry env opts output_dir st e).2 ≠ some RunErr.panicked := by
  obtain ⟨t, ht⟩ :=
    renderDispatch_valid_isSome env opts.output_format opts.width e.data hfmt
  cases henc : env.enclosed_name e.name with
  | none => simp [processEntry, henc]
  | some fname =>
    by_cases hdir : endsWithSlash fname = true
    · simp [processEntry, henc, hdir]
    · rw [Bool.not_eq_true] at hdir
      cases hcmd : env.file_cmd (pathJoin EXTRACT_PATH e.name) with
      | error m => simp [processEntry, henc, hdir, hcmd]
      | ok out =>
        by_cases hinf : isInfixB (str "html document")
            (lowerStr (out.getD (str "file"))) = true
        · obtain ⟨hiff, hdisj⟩ := htmlBranch_err_iff env opts
            { st with sniffed := st.sniffed ++ [pathJoin EXTRACT_PATH e.name] }
            e.name e.data t ht
          rcases hdisj with hd | hd <;>
            simp [processEntry, henc, hdir, hcmd, hinf, hd]
        · cases hcf : st.fs.createFile (pathJoin output_dir fname) e.data with
          | none => simp [processEntry, henc, hdir, hcmd, hinf, hcf]
          | some fs2 => simp [processEntry, henc, hdir, hcmd, hinf, hcf]

theorem processEntries_no_panic (env : Env) (opts : Options) (output_dir : Str)
    (hfmt : formatValid opts.output_format = true) :
    ∀ (es : List Entry) (st0 : RunState),
      (processEntries env opts output_dir st0 es).2 ≠ some RunErr.panicked := by
  intro es
  induction es with
  | nil => intro st0; simp [processEntries]
  | cons e rest ih =>
    intro st0
    rcases hstep : processEntry env opts output_dir st0 e with ⟨st1, er⟩
    cases er with
    | some er2 =>
      have hnp := processEntry_no_panic env opts output_dir st0 e hfmt
      rw [hstep] at hnp
      simp [processEntries, hstep]
      intro hco
      exact hnp (by rw [hco])
    | none =>
      simp only [processEntries, hstep]
      exact ih st1

theorem parse_no_panic (env : Env) (opts : Options) (st0 : RunState)
    (hfmt : formatValid opts.output_format = true) :
    (parse env opts st0).2 ≠ some RunErr.panicked := by
  by_cases hex : env.input_exists opts.input_file = true
  · cases ho : env.open_input with
    | some m => simp [parse, hex, ho]
    | none =>
      by_cases hz : env.new_archive_ok = true
      · by_cases hx : env.extract_archive_ok = true
        · cases hot : env.open_output_text with
          | some m => simp [parse, hex, ho, hz, hx, hot]
          | none =>
            cases hcd : env.create_output_dir with
            | some m => simp [parse, hex, ho, hz, hx, hot, hcd]
            | none =>
              simp only [parse, hex, ho, hz, hx, hot, hcd, Bool.not_true,
                Bool.false_eq_true, if_false]
              exact processEntries_no_panic env opts opts.output_dir hfmt
                env.entries _
        · rw [Bool.not_eq_true] at hx
          simp [parse, hex, ho, hz, hx]
      · rw [Bool.not_eq_true] at hz
        simp [parse, hex, ho, hz]
  · rw [Bool.not_eq_true] at hex
    simp [parse, hex]

/- Format bookkeeping through the option construction in `main`. -/

theorem baseOpts_format (pargs : ParsedArgs) (v : Str) :
    (baseOpts pargs v).output_format = str "trivial" := by
  unfold baseOpts
  cases pargs.output <;> rfl

theorem applyWidth_ok_format (pargs : ParsedArgs) (o o' : Options)
    (h : applyWidth pargs o = .ok o') : o'.output_format = o.output_format := by
  unfold applyWidth at h
  cases hp : pargs.width with
  | none =>
    simp only [hp] at h
    injection h with h2
    rw [← h2]
  | some w =>
    simp only [hp] at h
    cases hq : parseU32 w with
    | none => simp only [hq] at h; exact Except.noConfusion h
    | some n =>
      simp only [hq] at h
      injection h with h2
      rw [← h2]
      rfl

theorem setArtifacts_format (b : Bool) (o : Options) :
    (if b then o.set_artifacts true else o).output_format = o.output_format := by
  cases b <;> rfl

theorem applyFormat_ok_valid (pargs : ParsedArgs) (o o' : Options)
    (h : applyFormat pargs o = .ok o')
    (hv : formatValid o.output_format = true) :
    formatValid o'.output_format = true := by
  unfold applyFormat at h
  cases hp : pargs.format with
  | none =>
    simp only [hp] at h
    injection h with h2
    rw [← h2]
    exact hv
  | some s =>
    simp only [hp] at h
    by_cases e1 : s = str "plain"
    · rw [if_pos e1] at h
      injection h with h2
      rw [← h2]
      exact (by decide : formatValid (str "plain") = true)
    · rw [if_neg e1] at h
      by_cases e2 : s = str "trivial"
      · rw [if_pos e2] at h
        injection h with h2
        rw [← h2]
        exact (by decide : formatValid (str "trivial") = true)
      · rw [if_neg e2] at h
        by_cases e3 : s = str "rich"
        · rw [if_pos e3] at h
          injection h with h2
          rw [← h2]
          exact (by decide : formatValid (str "rich") = true)
        · rw [if_neg e3] at h; exact Except.noConfusion h

theorem applyFormat_none (pargs : ParsedArgs) (o : Options)
    (hp : pargs.format = none) : applyFormat pargs o = .ok o := by
  simp [applyFormat, hp]

theorem mainBuildOpts_formatValid (pargs : ParsedArgs) (v : Str)
    (opts : Options) (h : mainBuildOpts pargs v = .ok opts) :
    formatValid opts.output_format = true := by
  unfold mainBuildOpts at h
  cases hw : applyWidth pargs (baseOpts pargs v) with
  | error er => simp only [hw] at h; exact Except.noConfusion h
  | ok o3 =>
    simp only [hw] at h
    have hv3 : formatValid o3.output_format = true := by
      rw [applyWidth_ok_format pargs (baseOpts pargs v) o3 hw, baseOpts_format]
      decide
    exact applyFormat_ok_valid pargs _ opts h
      (by rw [setArtifacts_format]; exact hv3)

theorem mainBuildOpts_format_none (pargs : ParsedArgs) (v : Str)
    (opts : Options) (h : mainBuildOpts pargs v = .ok opts)
    (hf : pargs.format = none) : opts.output_format = str "trivial" := by
  unfold mainBuildOpts at h
  cases hw : applyWidth pargs (baseOpts pargs v) with
  | error er => simp only [hw] at h; exact Except.noConfusion h
  | ok o3 =>
    simp only [hw] at h
    rw [applyFormat_none pargs _ hf] at h
    injection h with h2
    rw [← h2, setArtifacts_format, applyWidth_ok_format pargs _ o3 hw,
      baseOpts_format]

/-- C10: every `Options` record that `main` can construct and hand to `parse`
has `output_format` equal to one of "trivial", "plain", "rich" (and exactly
"trivial" when the format flag is absent), so the `unreachable!()` arm of the
format dispatch in `parse` is dead: `parse` never panics on format
selection. -/
theorem C10_format_closed (pargs : ParsedArgs) (v : Str) (opts : Options)
    (h : mainBuildOpts pargs v = .ok opts) :
    formatValid opts.output_format = true ∧
    (pargs.format = none → opts.output_format = str "trivial") ∧
    ∀ (env : Env) (st0 : RunState),
      (parse env opts st0).2 ≠ some RunErr.panicked :=
  ⟨mainBuildOpts_formatValid pargs v opts h,
    fun hf => mainBuildOpts_format_none pargs v opts h hf,
    fun env st0 =>
      parse_no_panic env opts st0 (mainBuildOpts_formatValid pargs v opts h)⟩

def pargsW : ParsedArgs :=
  { input := some (str "in.zip"), output := none, width := none,
    artifacts := false, format := none }

def optsW : Options := { Options.default with input_file := str "in.zip" }

theorem C10_format_closed_witness :
    formatValid optsW.output_format = true ∧
    optsW.output_format = str "trivial" ∧
    (parse noEnv optsW initState).2 ≠ some RunErr.panicked := by
  have h := C10_format_closed pargsW (str "in.zip") optsW rfl
  exact ⟨h.1, h.2.1 rfl, h.2.2 noEnv initState⟩

/- C2: the source removes the scratch directory unconditionally after `parse`
   returns (line 244 is not guarded by the parse result), so the removal is
   attempted on failing runs too. -/

def envC2 : Env := { noEnv with args := .ok pargsW }

theorem C2_counterexample :
    (mainRun envC2 initState).stdout_lines =
      [str "ERROR OCCURED: Input file does not exist"] ∧
    (mainRun envC2 initState).removal_attempted = true := by
  decide

/-- C2 (amended): the recursive removal of the temporary extraction directory
is attempted after every `parse` invocation, on success and failure alike:
whenever argument parsing succeeded, the input flag is present, and the
width/format handling accepted the options, `main` reaches
`remove_dir_all(EXTRACT_PATH)` regardless of the parse outcome. -/
theorem C2_removal_always_attempted (env : Env) (st0 : RunState)
    (pargs : ParsedArgs) (v : Str) (opts : Options)
    (h1 : env.args = .ok pargs) (h2 : pargs.input = some v)
    (h3 : mainBuildOpts pargs v = .ok opts) :
    (mainRun env st0).removal_attempted = true := by
  have hfmt := mainBuildOpts_formatValid pargs v opts h3
  have hnp := parse_no_panic env opts st0 hfmt
  rcases hp : parse env opts st0 with ⟨st1, er⟩
  rw [hp] at hnp
  cases er with
  | none => simp [mainRun, h1, h2, h3, hp]
  | some e2 =>
    cases e2 with
    | panicked => exact absurd rfl hnp
    | failed er => simp [mainRun, h1, h2, h3, hp]

def envC2w : Env :=
  { noEnv with args := .ok pargsW, input_exists := fun _ => true }

theorem C2_removal_always_attempted_witness :
    (mainRun envC2w initState).removal_attempted = true :=
  C2_removal_always_attempted envC2w initState pargsW (str "in.zip") optsW rfl
    rfl rfl

/- C3: a width or format error makes `main` itself return `Err`, which exits
   with a failure status and prints nothing to standard output. -/

def pargsC3 : ParsedArgs :=
  { input := some (str "in.zip"), output := none, width := none,
    artifacts := false, format := some (str "xml") }

def envC3 : Env :=
  { noEnv with args := .ok pargsC3, input_exists := fun _ => true }

theorem C3_counterexample :
    (mainRun envC3 initState).exit_ok = false ∧
    (mainRun envC3 initState).stdout_lines = [] := by
  decide

/-- C3 (amended): failures from the flag parser are printed to standard output
and `main` still exits successfully; failures inside the conversion run are
printed to standard output prefixed with "ERROR OCCURED: " and, provided the
subsequent scratch-directory removal succeeds, `main` exits successfully; but
an unparseable width or unrecognized format makes `main` return the error
itself: nothing is printed to standard output and the process terminates with
an unsuccessful exit status. -/
theorem C3_exit_behavior_amended (env : Env) (st0 : RunState) :
    (∀ e, env.args = .error e →
      (mainRun env st0).stdout_lines = [e] ∧
      (mainRun env st0).exit_ok = true) ∧
    (∀ pargs v opts er st1, env.args = .ok pargs → pargs.input = some v →
      mainBuildOpts pargs v = .ok opts →
      parse env opts st0 = (st1, some (.failed er)) →
      env.remove_ok = true →
      (mainRun env st0).stdout_lines = [str "ERROR OCCURED: " ++ er.display] ∧
      (mainRun env st0).exit_ok = true) ∧
    (∀ pargs v er, env.args = .ok pargs → pargs.input = some v →
      mainBuildOpts pargs v = .error er →
      (mainRun env st0).stdout_lines = [] ∧
      (mainRun env st0).exit_ok = false) := by
  refine ⟨?_, ?_, ?_⟩
  · intro e he
    simp [mainRun, he]
  · intro pargs v opts er st1 h1 h2 h3 hp hr
    simp [mainRun, h1, h2, h3, hp, hr]
  · intro pargs v er h1 h2 h3
    simp [mainRun, h1, h2, h3]

def envC3w : Env := { noEnv with args := .ok pargsW }

theorem C3_exit_behavior_amended_witness :
    (mainRun envC3w initState).stdout_lines =
      [str "ERROR OCCURED: " ++
        (MyError.Msg (str "Input file does not exist")).display] ∧
    (mainRun envC3w initState).exit_ok = true :=
  (C3_exit_behavior_amended envC3w initState).2.1 pargsW (str "in.zip") optsW
    (MyError.Msg (str "Input file does not exist")) initState rfl rfl
    rfl (by decide) rfl

/- C1: the copy branch (lines 164-167) calls `File::create` directly on the
   joined output path without creating parent directories first. -/

def envC1 : Env :=
  { noEnv with
    input_exists := fun _ => true
    enclosed_name := fun n => some n
    entries := [⟨str "sub/c.txt", [104, 105]⟩]
    file_cmd := fun _ => .ok (some (str "ASCII text")) }

theorem C1_counterexample :
    (parse envC1 Options.default initState).2 =
      some (.failed (.Io (str "No such file or directory"))) ∧
    (parse envC1 Options.default initState).1.fs.files = [] ∧
    (parse envC1 Options.default initState).1.fs.hasDir (str "./rest/sub") =
      false := by
  decide

/-- C1 (amended): for an entry classified as neither directory nor HTML, the
program creates no parent directories; it calls `File::create` directly at the
sanitized relative path joined under the output directory.  If the parent
directory already exists there, the entry's raw bytes are copied verbatim to a
newly created (truncated) file at that path; otherwise the run aborts with an
I/O error and no file is created. -/
theorem C1_copy_amended (env : Env) (opts : Options) (output_dir : Str)
    (st : RunState) (e : Entry) (fname : Str)
    (h1 : env.enclosed_name e.name = some fname)
    (h2 : endsWithSlash fname = false)
    (h3 : classify env e = EntryClass.other) :
    (processEntry env opts output_dir st e).1.fs.dirs = st.fs.dirs ∧
    (if st.fs.hasDir (parentPath (pathJoin output_dir fname)) then
      (processEntry env opts output_dir st e).2 = none ∧
      (processEntry env opts output_dir st e).1.fs.files =
        (pathJoin output_dir fname, e.data) ::
          st.fs.files.filter (fun q => q.1 != pathJoin output_dir fname)
    else
      (processEntry env opts output_dir st e).2 =
        some (.failed (.Io (str "No such file or directory"))) ∧
      (processEntry env opts output_dir st e).1.fs.files = st.fs.files) := by
  cases hcmd : env.file_cmd (pathJoin EXTRACT_PATH e.name) with
  | error m => simp [classify, h1, h2, hcmd] at h3
  | ok out =>
    by_cases hinf : isInfixB (str "html document")
        (lowerStr (out.getD (str "file"))) = true
    · simp [classify, h1, h2, hcmd, hinf] at h3
    · by_cases hd : st.fs.hasDir (parentPath (pathJoin output_dir fname)) = true
      · simp [processEntry, h1, h2, hcmd, hinf, FS.createFile, hd]
      · rw [Bool.not_eq_true] at hd
        simp [processEntry, h1, h2, hcmd, hinf, FS.createFile, hd]

def envC1w : Env :=
  { noEnv with
    input_exists := fun _ => true
    enclosed_name := fun n => some n
    file_cmd := fun _ => .ok (some (str "ASCII text")) }

def stC1w : RunState :=
  { fs := { dirs := [str ".", str "./rest"], files := [] }
    out_text := []
    out_truncated := true
    write_count := 0
    sniffed := []
    rendered := [] }

def entryC1w : Entry := ⟨str "b.txt", [104]⟩

theorem C1_copy_amended_witness :
    (processEntry envC1w Options.default (str "./rest") stC1w
        entryC1w).1.fs.dirs = stC1w.fs.dirs ∧
    (if stC1w.fs.hasDir (parentPath (pathJoin (str "./rest") (str "b.txt"))) then
      (processEntry envC1w Options.default (str "./rest") stC1w entryC1w).2 =
        none ∧
      (processEntry envC1w Options.default (str "./rest") stC1w
          entryC1w).1.fs.files =
        (pathJoin (str "./rest") (str "b.txt"), entryC1w.data) ::
          stC1w.fs.files.filter
            (fun q => q.1 != pathJoin (str "./rest") (str "b.txt"))
    else
      (processEntry envC1w Options.default (str "./rest") stC1w entryC1w).2 =
        some (.failed (.Io (str "No such file or directory"))) ∧
      (processEntry envC1w Options.default (str "./rest") stC1w
          entryC1w).1.fs.files = stC1w.fs.files) :=
  C1_copy_amended envC1w Options.default (str "./rest") stC1w entryC1w
    (str "b.txt") rfl (by decide) (by decide)

end Extractor
